import Mathlib

/-!
Verification of the MailHog scanner (src/pyTesting/mailhog_scanner.py) as a
shallow embedding.  Network effects are modelled by explicit environments:
an environment records, for each probe a primitive would issue, the outcome
the network would give (with `none` standing for a raised exception, which
the source catches).  Each function of the source is translated into a pure
Lean function over such an environment; instrumented variants (suffix `T`)
additionally return the ordered list of probes issued, so that claims about
probe order and short-circuiting can be stated.
-/

namespace MailhogScanner

/-- Shape of a parsed JSON body, as far as the scanner inspects it:
an object containing an items field of length n, an object without an
items field, a JSON array of length n, or any other JSON value. -/
inductive JsonVal
  | itemsObj (n : Nat)
  | noItemsObj
  | arr (n : Nat)
  | other
deriving DecidableEq, Repr

/-- One HTTP response as the scanner observes it: status code, the parsed
JSON body (`none` when response.json() raises), and whether the body text
contains the substring MailHog. -/
structure HttpResp where
  status : Nat
  json : Option JsonVal
  textHasMailHog : Bool
deriving DecidableEq, Repr

/-- HTTP environment for one base URL: maps a relative path to the response
requests.get would produce there; `none` stands for a transport error
(requests.get raises).  The empty path stands for the bare root URL. -/
structure HttpEnv where
  get : String → Option HttpResp

/-- The fixed ordered path list of is_mailhog_api (mailhog_scanner.py lines
81-85): v1 messages listing first, then v2, then the bare api root. -/
def api_paths : List String := ["/api/v1/messages", "/api/v2/messages", "/api"]

/-- Body of the per-path loop of is_mailhog_api (lines 87-104): `some r`
when the loop body returns r, `none` when it falls through to the next
path (non-200 status, exception, or a v2 body without an items field). -/
def probePath (e : HttpEnv) (path : String) : Option (Bool × String × String) :=
  match e.get path with
  | none => none
  | some r =>
    if r.status = 200 then
      if path = "/api/v2/messages" then
        match r.json with
        | some (JsonVal.itemsObj _) => some (true, "v2", path)
        | _ => none
      else if path = "/api/v1/messages" then
        match r.json with
        | some _ => some (true, "v1", path)
        | none => none
      else if path = "/api" then some (true, "unknown", path)
      else none
    else none

/-- The loop over api_paths, also returning the ordered list of paths
actually probed: the loop stops at the first path whose body returns. -/
def apiLoop (e : HttpEnv) : List String → Option (Bool × String × String) × List String
  | [] => (none, [])
  | p :: ps =>
    match probePath e p with
    | some r => (some r, [p])
    | none =>
      let rec_ := apiLoop e ps
      (rec_.1, p :: rec_.2)

/-- is_mailhog_api (lines 77-116), instrumented with the list of paths
probed (the empty path denotes the root-page fetch of the web-interface
fallback, lines 107-112). -/
def is_mailhog_apiT (e : HttpEnv) :
    (Bool × Option String × Option String) × List String :=
  match apiLoop e api_paths with
  | (some res, tr) => ((res.1, some res.2.1, some res.2.2), tr)
  | (none, tr) =>
    match e.get "" with
    | some r =>
      if r.textHasMailHog then ((true, some "web_interface", some "/"), tr ++ [""])
      else ((false, none, none), tr ++ [""])
    | none => ((false, none, none), tr ++ [""])

/-- is_mailhog_api, result only. -/
def is_mailhog_api (e : HttpEnv) : Bool × Option String × Option String :=
  (is_mailhog_apiT e).1

/-! ## TCP and SMTP probe primitives (lines 50-75) -/

/-- Environment of one check_tcp_port call: the value connect_ex returns,
or `none` when the socket calls raise. -/
structure TcpProbeEnv where
  connectEx : Option Int
deriving DecidableEq, Repr

/-- check_tcp_port (lines 50-59): open iff connect_ex returned 0; every
exception is caught and collapsed to false. -/
def check_tcp_port (e : TcpProbeEnv) : Bool :=
  match e.connectEx with
  | some r => decide (r = 0)
  | none => false

/-- Character-list version of Python substring membership, needle first. -/
def isPrefixChars : List Char → List Char → Bool
  | [], _ => true
  | _ :: _, [] => false
  | a :: as, b :: bs => a = b && isPrefixChars as bs

/-- hasSubstring needle hay decides whether needle occurs contiguously in
hay, as the Python `in` operator on strings does. -/
def hasSubstring (needle : List Char) : List Char → Bool
  | [] => needle.isEmpty
  | c :: t => isPrefixChars needle (c :: t) || hasSubstring needle t

/-- Python `needle in hay` on strings. -/
def strContains (hay needle : String) : Bool :=
  hasSubstring needle.toList hay.toList

/-- Environment of one is_smtp_port call: the greeting bytes received and
decoded (decoding with errors ignored never raises), or `none` when
connect or recv raises (no listener, refusal, timeout). -/
structure SmtpProbeEnv where
  recvData : Option String
deriving DecidableEq, Repr

/-- is_smtp_port (lines 61-75): a port counts as SMTP when the greeting
contains 220, SMTP or MailHog; every exception is caught and collapsed
to false. -/
def is_smtp_port (e : SmtpProbeEnv) : Bool :=
  match e.recvData with
  | some s => strContains s "220" || strContains s "SMTP" || strContains s "MailHog"
  | none => false

/-! ## Scan-level model -/

/-- A probe event issued by the scan: a TCP reachability check, an SMTP
classification, or an HTTP API classification of a port. -/
inductive Probe
  | tcp (port : Nat)
  | smtp (port : Nat)
  | api (port : Nat)
deriving DecidableEq, Repr

/-- Scan environment: the outcome each primitive would report per port.
tcp and smtp record the boolean the (total, never-raising) primitives
check_tcp_port and is_smtp_port return; http gives the per-port HTTP
environment consumed by is_mailhog_api. -/
structure Env where
  tcp : Nat → Bool
  smtp : Nat → Bool
  http : Nat → HttpEnv

def DEFAULT_SMTP_PORT : Nat := 1025
def DEFAULT_HTTP_PORT : Nat := 8025

/-- The base URL the scanner builds for a port. -/
def mkUrl (host : String) (port : Nat) : String :=
  "http://" ++ host ++ ":" ++ toString port

/-- A detected MailHog instance (the dicts built at lines 138-154 and
238-244). -/
structure Instance where
  smtp_port : Nat
  api_port : Nat
  api_version : String
  api_url : String
  web_ui : String
deriving DecidableEq, Repr

/-- An API candidate collected by the third scan pass (lines 220-225). -/
structure ApiInfo where
  port : Nat
  api_version : String
  api_path : String
  url : String
deriving DecidableEq, Repr

/-- check_default_mailhog_instance (lines 118-168), instrumented with the
probes issued.  The source returns a one-element list or None and the
caller only forwards it, so the result is modelled as Option Instance.
When the classifier flag is true its version and path are always some
(lemma is_mailhog_api_some below), so getD never falls to its default. -/
def check_default_mailhog_instanceT (host : String) (e : Env) :
    Option Instance × List Probe :=
  let smtpOpen := e.tcp DEFAULT_SMTP_PORT
  let httpOpen := e.tcp DEFAULT_HTTP_PORT
  let tr0 := [Probe.tcp DEFAULT_SMTP_PORT, Probe.tcp DEFAULT_HTTP_PORT]
  if !smtpOpen && !httpOpen then (none, tr0)
  else
    let smtpRes : Option Nat × List Probe :=
      if smtpOpen then
        (if e.smtp DEFAULT_SMTP_PORT then some DEFAULT_SMTP_PORT else none,
         [Probe.smtp DEFAULT_SMTP_PORT])
      else (none, [])
    let apiRes : Option (String × String) × List Probe :=
      if httpOpen then
        (match is_mailhog_api (e.http DEFAULT_HTTP_PORT) with
         | (true, v, pa) => some (v.getD "", pa.getD "")
         | (false, _, _) => none,
         [Probe.api DEFAULT_HTTP_PORT])
      else (none, [])
    match smtpRes.1, apiRes.1 with
    | some sp, some vp =>
      (some { smtp_port := sp, api_port := DEFAULT_HTTP_PORT,
              api_version := vp.1,
              api_url := mkUrl host DEFAULT_HTTP_PORT ++ vp.2,
              web_ui := mkUrl host DEFAULT_HTTP_PORT },
       tr0 ++ smtpRes.2 ++ apiRes.2)
    | _, _ => (none, tr0 ++ smtpRes.2 ++ apiRes.2)

/-- First pass of the full sweep (lines 187-203): every port of the
inclusive range is probed; the open ones are collected in port order
(the futures dict preserves submission order and result() blocks). -/
def sweepOpenPorts (e : Env) (lo hi : Nat) : List Nat × List Probe :=
  let ports := List.range' lo (hi + 1 - lo)
  (ports.filter e.tcp, ports.map Probe.tcp)

/-- Second pass (lines 205-211): SMTP classification of every open port. -/
def smtpPass (e : Env) (openPorts : List Nat) : List Nat × List Probe :=
  (openPorts.filter e.smtp, openPorts.map Probe.smtp)

/-- Third pass (lines 213-233): API classification of the open ports,
breaking out of the loop right after recording an API candidate when the
SMTP candidate list (fixed before this pass) is non-empty. -/
def apiPass (host : String) (e : Env) (smtpNonempty : Bool) :
    List Nat → List ApiInfo × List Probe
  | [] => ([], [])
  | p :: ps =>
    match is_mailhog_api (e.http p) with
    | (true, v, pa) =>
      let info : ApiInfo :=
        { port := p, api_version := v.getD "", api_path := pa.getD "",
          url := mkUrl host p }
      if smtpNonempty then ([info], [Probe.api p])
      else
        let rest := apiPass host e smtpNonempty ps
        (info :: rest.1, Probe.api p :: rest.2)
    | (false, _, _) =>
      let rest := apiPass host e smtpNonempty ps
      (rest.1, Probe.api p :: rest.2)

/-- The correlation step (lines 235-244): every SMTP candidate paired with
every API candidate, in nested-loop order. -/
def correlate (smtpPorts : List Nat) (apiInfos : List ApiInfo) : List Instance :=
  smtpPorts.flatMap fun sp => apiInfos.map fun a =>
    { smtp_port := sp, api_port := a.port, api_version := a.api_version,
      api_url := a.url ++ a.api_path, web_ui := a.url }

/-- scan_mailhog_ports (lines 170-246), instrumented with the probes
issued, in order. -/
def scan_mailhog_portsT (host : String) (e : Env) (lo hi : Nat) :
    List Instance × List Probe :=
  match check_default_mailhog_instanceT host e with
  | (some inst, tr) => ([inst], tr)
  | (none, tr0) =>
    let sw := sweepOpenPorts e lo hi
    let sm := smtpPass e sw.1
    let ap := apiPass host e (!sm.1.isEmpty) sw.1
    (correlate sm.1 ap.1, tr0 ++ sw.2 ++ sm.2 ++ ap.2)

/-- scan_mailhog_ports, result only. -/
def scan_mailhog_ports (host : String) (e : Env) (lo hi : Nat) : List Instance :=
  (scan_mailhog_portsT host e lo hi).1

/-- The parsed command-line arguments of main (lines 360-369). -/
structure Args where
  host : String
  lo : Nat
  hi : Nat
  skip_default_check : Bool
deriving DecidableEq, Repr

/-- The scan main performs (line 377).  Faithful to the source: main parses
skip_default_check (line 365) but never consults it, and
scan_mailhog_ports unconditionally runs the default-port check first. -/
def main_scanT (args : Args) (e : Env) : List Instance × List Probe :=
  scan_mailhog_portsT args.host e args.lo args.hi

/-! ## Verification engine (verify_mailhog_functionality, lines 248-322) -/

/-- The message count recorded by the API stage: a known integer or the
string value unknown stored by the source. -/
inductive MCount
  | known (n : Nat)
  | unknown
deriving DecidableEq, Repr

/-- The verification dict (lines 250-254 plus the optional
message_received key): message_received is `none` when the key is absent. -/
structure Verification where
  smtp_test : Bool
  api_test : Bool
  message_count : MCount
  message_received : Option Bool
deriving DecidableEq, Repr

/-- Environment of one verify_mailhog_functionality call: the response of
the first messages GET (line 268), whether the SMTP send succeeds
(lines 295-297), and the response of the re-check GET (line 305).
`none` stands for a raised exception. -/
structure VerifyEnv where
  firstGet : Option HttpResp
  smtpSend : Bool
  recheckGet : Option HttpResp

/-- Baseline count parsing (lines 272-281): items length on v2 bodies with
an items field, list length on lists, unknown otherwise. -/
def baseline_count (api_version : String) (j : JsonVal) : MCount :=
  if api_version = "v2" then
    match j with
    | JsonVal.itemsObj n => MCount.known n
    | JsonVal.arr n => MCount.known n
    | _ => MCount.unknown
  else
    match j with
    | JsonVal.arr n => MCount.known n
    | _ => MCount.unknown

/-- Re-check count parsing (lines 308-313): starts at 0, set from an items
field on v2 or from a list length, otherwise left at 0. -/
def recheck_count (api_version : String) (j : JsonVal) : Nat :=
  if api_version = "v2" then
    match j with
    | JsonVal.itemsObj n => n
    | JsonVal.arr n => n
    | _ => 0
  else
    match j with
    | JsonVal.arr n => n
    | _ => 0

/-- verify_mailhog_functionality (lines 248-322).  Stage 1 catches its own
exceptions and leaves api_test false, message_count 0; a body that fails
to parse after the 200 check leaves api_test true with the default count.
Stage 2 records the SMTP outcome independently.  Stage 3 runs only when
both earlier stages succeeded: an exception there yields message_received
false, a non-200 re-check leaves the key absent, and a parsed body is
compared to the baseline with the permissive unknown fallback
(lines 315-318). -/
def verify_mailhog_functionality (api_version : String) (e : VerifyEnv) :
    Verification :=
  let stage1 : Bool × MCount :=
    match e.firstGet with
    | none => (false, MCount.known 0)
    | some r =>
      if r.status = 200 then
        match r.json with
        | none => (true, MCount.known 0)
        | some j => (true, baseline_count api_version j)
      else (false, MCount.known 0)
  let api_test := stage1.1
  let message_count := stage1.2
  let smtp_test := e.smtpSend
  let message_received : Option Bool :=
    if api_test && smtp_test then
      match e.recheckGet with
      | none => some false
      | some r =>
        if r.status = 200 then
          match r.json with
          | none => some false
          | some j =>
            some (match message_count with
                  | MCount.known b => decide (recheck_count api_version j > b)
                  | MCount.unknown => true)
        else none
    else none
  { smtp_test := smtp_test, api_test := api_test,
    message_count := message_count, message_received := message_received }

/-! ## Concrete environments used to evaluate the model -/

/-- A server on which every HTTP request raises. -/
def httpEnvDead : HttpEnv := ⟨fun _ => none⟩

/-- A stub server answering an items-JSON body only at the v2 messages
path and 404 elsewhere. -/
def httpEnvV2Only : HttpEnv :=
  ⟨fun p =>
    if p = "/api/v2/messages" then some ⟨200, some (JsonVal.itemsObj 0), false⟩
    else some ⟨404, none, false⟩⟩

/-- A stub server matching both listing endpoints: plain JSON at the v1
path and an items-JSON body at the v2 path. -/
def httpEnvBoth : HttpEnv :=
  ⟨fun p =>
    if p = "/api/v1/messages" then some ⟨200, some JsonVal.other, false⟩
    else if p = "/api/v2/messages" then some ⟨200, some (JsonVal.itemsObj 0), false⟩
    else some ⟨404, none, false⟩⟩

/-- A stub server on which all three API paths 404 but whose root page
contains the product name MailHog. -/
def httpEnvWeb : HttpEnv :=
  ⟨fun p =>
    if p = "" then some ⟨200, none, true⟩
    else some ⟨404, none, false⟩⟩

/-- A scan environment with nothing listening anywhere. -/
def envAllClosed : Env :=
  ⟨fun _ => false, fun _ => false, fun _ => httpEnvDead⟩

/-- A scan environment with a MailHog SMTP service on the default SMTP
port and a v2 API on the default HTTP port, nothing else open. -/
def envDefaultUp : Env :=
  ⟨fun p => p == 1025 || p == 8025,
   fun p => p == 1025,
   fun p => if p == 8025 then httpEnvV2Only else httpEnvDead⟩

/-- A scan environment for the API-pass early exit: API-negative port
2000, API-positive ports 2001 and 2002. -/
def envC6 : Env :=
  ⟨fun p => p == 2000 || p == 2001 || p == 2002,
   fun p => p == 2000,
   fun p => if p == 2001 || p == 2002 then httpEnvV2Only else httpEnvDead⟩

/-- A scan environment where the default ports are closed and the sweep
range holds an SMTP port 3000 and a web-UI-only port 3001. -/
def envWeb : Env :=
  ⟨fun p => p == 3000 || p == 3001,
   fun p => p == 3000,
   fun p => if p == 3001 then httpEnvWeb else httpEnvDead⟩

/-- A scan environment with MailHog SMTP on the default SMTP port and a
web-UI-only server on the default HTTP port. -/
def envWebDefault : Env :=
  ⟨fun p => p == 1025 || p == 8025,
   fun p => p == 1025,
   fun p => if p == 8025 then httpEnvWeb else httpEnvDead⟩

/-- A verification environment: baseline listing with 0 items, successful
SMTP send, re-check listing with 1 item. -/
def verifyEnvBase : VerifyEnv :=
  ⟨some ⟨200, some (JsonVal.itemsObj 0), false⟩, true,
   some ⟨200, some (JsonVal.itemsObj 1), false⟩⟩

/-- A verification environment whose baseline body is a JSON object
without an items field (count recorded as unknown), with a successful
send and a parseable re-check. -/
def verifyEnvUnknown : VerifyEnv :=
  ⟨some ⟨200, some JsonVal.noItemsObj, false⟩, true,
   some ⟨200, some JsonVal.noItemsObj, false⟩⟩

/-- A verification environment whose first API GET raises. -/
def verifyEnvApiDown : VerifyEnv :=
  ⟨none, true, none⟩

/-- A verification environment whose SMTP send fails. -/
def verifyEnvSmtpDown : VerifyEnv :=
  ⟨some ⟨200, some (JsonVal.itemsObj 0), false⟩, false,
   some ⟨200, some (JsonVal.itemsObj 1), false⟩⟩

/-! ## Helper lemmas -/

theorem apiLoop_cons_pos (e : HttpEnv) (p : String) (ps : List String)
    (r : Bool × String × String) (h : probePath e p = some r) :
    apiLoop e (p :: ps) = (some r, [p]) := by
  simp [apiLoop, h]

theorem apiLoop_cons_neg (e : HttpEnv) (p : String) (ps : List String)
    (h : probePath e p = none) :
    apiLoop e (p :: ps) = ((apiLoop e ps).1, p :: (apiLoop e ps).2) := by
  simp [apiLoop, h]

/-- When the classifier flag is true, the version and path of the result
are always populated. -/
theorem is_mailhog_api_some (e : HttpEnv) :
    (is_mailhog_api e).1 = true →
    ∃ v p, is_mailhog_api e = (true, some v, some p) := by
  unfold is_mailhog_api is_mailhog_apiT
  rcases hl : apiLoop e api_paths with ⟨res, tr⟩
  cases res with
  | some r =>
    obtain ⟨b, v, pa⟩ := r
    intro h
    simp only at h ⊢
    exact ⟨v, pa, by simp_all⟩
  | none =>
    cases hg : e.get "" with
    | none => intro h; simp [hg] at h
    | some r =>
      by_cases hm : r.textHasMailHog
      · intro _; exact ⟨"web_interface", "/", by simp [hg, hm]⟩
      · intro h; simp [hg, hm] at h

theorem correlate_length (sp : List Nat) (ai : List ApiInfo) :
    (correlate sp ai).length = sp.length * ai.length := by
  induction sp with
  | nil => simp [correlate]
  | cons a t ih =>
    simp only [correlate, List.flatMap_cons, List.length_append,
      List.length_map, List.length_cons] at *
    rw [ih]; ring

/-! ## Claims -/

/-- C4: for every scan pass producing m SMTP candidates and n API
candidates, the correlation step yields exactly m times n instances, each
SMTP candidate paired with each API candidate; SMTP candidates 25 and 26
with the single API candidate on port 80 yield exactly the two instances
(25,80) and (26,80). -/
theorem correlate_cross_product_law :
    (∀ (sp : List Nat) (ai : List ApiInfo),
       (correlate sp ai).length = sp.length * ai.length)
    ∧ (∀ (sp : List Nat) (ai : List ApiInfo) (inst : Instance),
         inst ∈ correlate sp ai ↔
           ∃ s ∈ sp, ∃ a ∈ ai,
             inst = { smtp_port := s, api_port := a.port,
                      api_version := a.api_version,
                      api_url := a.url ++ a.api_path, web_ui := a.url })
    ∧ correlate [25, 26] [⟨80, "v2", "/api/v2/messages", mkUrl "localhost" 80⟩] =
        [{ smtp_port := 25, api_port := 80, api_version := "v2",
           api_url := mkUrl "localhost" 80 ++ "/api/v2/messages",
           web_ui := mkUrl "localhost" 80 },
         { smtp_port := 26, api_port := 80, api_version := "v2",
           api_url := mkUrl "localhost" 80 ++ "/api/v2/messages",
           web_ui := mkUrl "localhost" 80 }] := by
  refine ⟨correlate_length, ?_, by decide⟩
  intro sp ai inst
  simp only [correlate, List.mem_flatMap, List.mem_map]
  constructor
  · rintro ⟨s, hs, a, ha, rfl⟩
    exact ⟨s, hs, a, ha, rfl⟩
  · rintro ⟨s, hs, a, ha, rfl⟩
    exact ⟨s, hs, a, ha, rfl⟩

/-- C8: check_tcp_port and is_smtp_port collapse every failure mode - an
exception from the socket calls (no listener, refusal, timeout) or a
greeting without any of the expected markers - to false; in particular a
port with no listener yields false from check_tcp_port, whether
connect_ex reports a nonzero error code or the call raises. -/
theorem probe_failure_collapse :
    (∀ e : TcpProbeEnv, e.connectEx = none → check_tcp_port e = false)
    ∧ (∀ (e : TcpProbeEnv) (r : Int), e.connectEx = some r → r ≠ 0 →
         check_tcp_port e = false)
    ∧ (∀ e : SmtpProbeEnv, e.recvData = none → is_smtp_port e = false)
    ∧ (∀ (e : SmtpProbeEnv) (s : String), e.recvData = some s →
         strContains s "220" = false → strContains s "SMTP" = false →
         strContains s "MailHog" = false → is_smtp_port e = false) := by
  refine ⟨?_, ?_, ?_, ?_⟩
  · intro e h; simp [check_tcp_port, h]
  · intro e r h hr; simp [check_tcp_port, h, hr]
  · intro e h; simp [is_smtp_port, h]
  · intro e s h h1 h2 h3; simp [is_smtp_port, h, h1, h2, h3]

/-- Witness for C8 at concrete failure inputs: a raised connect, an
ECONNREFUSED-style nonzero connect_ex code, a raised recv, and a greeting
lacking all three markers. -/
theorem probe_failure_collapse_witness :
    check_tcp_port ⟨none⟩ = false ∧ check_tcp_port ⟨some 111⟩ = false ∧
    is_smtp_port ⟨none⟩ = false ∧ is_smtp_port ⟨some "hello"⟩ = false :=
  ⟨probe_failure_collapse.1 ⟨none⟩ rfl,
   probe_failure_collapse.2.1 ⟨some 111⟩ 111 rfl (by decide),
   probe_failure_collapse.2.2.1 ⟨none⟩ rfl,
   probe_failure_collapse.2.2.2 ⟨some "hello"⟩ "hello" rfl
     (by decide) (by decide) (by decide)⟩

/-- C7: the verification stages degrade gracefully.  The API stage results
(apiTest, messageCountBaseline) depend only on the first GET and are
untouched by the SMTP stage outcome; the SMTP stage outcome is recorded
whatever the API stage did; an API failure leaves apiTest false with the
default baseline; smtpTest stays at its default false when the send
fails.  Every stage is total, so no failure aborts the verification. -/
theorem verification_graceful_degradation :
    (∀ (ver : String) (e e2 : VerifyEnv), e.firstGet = e2.firstGet →
       (verify_mailhog_functionality ver e).api_test =
         (verify_mailhog_functionality ver e2).api_test ∧
       (verify_mailhog_functionality ver e).message_count =
         (verify_mailhog_functionality ver e2).message_count)
    ∧ (∀ (ver : String) (e : VerifyEnv),
         (verify_mailhog_functionality ver e).smtp_test = e.smtpSend)
    ∧ (∀ (ver : String) (e : VerifyEnv), e.firstGet = none →
         (verify_mailhog_functionality ver e).api_test = false ∧
         (verify_mailhog_functionality ver e).message_count = MCount.known 0) := by
  refine ⟨?_, ?_, ?_⟩
  · intro ver e e2 h
    constructor <;> simp [verify_mailhog_functionality, h]
  · intro ver e; rfl
  · intro ver e h
    constructor <;> simp [verify_mailhog_functionality, h]

/-- Witness for C7: the API results of a run with a failing SMTP send
match those of the same run with a working send, and a run whose API GET
raises still records the SMTP outcome with apiTest false and the default
baseline. -/
theorem verification_graceful_degradation_witness :
    ((verify_mailhog_functionality "v2" verifyEnvSmtpDown).api_test =
       (verify_mailhog_functionality "v2" verifyEnvBase).api_test ∧
     (verify_mailhog_functionality "v2" verifyEnvSmtpDown).message_count =
       (verify_mailhog_functionality "v2" verifyEnvBase).message_count)
    ∧ (verify_mailhog_functionality "v2" verifyEnvApiDown).smtp_test = true
    ∧ (verify_mailhog_functionality "v2" verifyEnvApiDown).api_test = false
    ∧ (verify_mailhog_functionality "v2" verifyEnvApiDown).message_count =
        MCount.known 0 :=
  ⟨verification_graceful_degradation.1 "v2" verifyEnvSmtpDown verifyEnvBase rfl,
   verification_graceful_degradation.2.1 "v2" verifyEnvApiDown,
   (verification_graceful_degradation.2.2 "v2" verifyEnvApiDown rfl).1,
   (verification_graceful_degradation.2.2 "v2" verifyEnvApiDown rfl).2⟩

/-- C9: the message_received key is set only when both the API stage and
the SMTP stage succeeded; when either stage failed, the verification
result carries no message_received key at all. -/
theorem message_received_absent_on_stage_failure :
    ∀ (ver : String) (e : VerifyEnv),
      ((verify_mailhog_functionality ver e).api_test = false ∨
       (verify_mailhog_functionality ver e).smtp_test = false) →
      (verify_mailhog_functionality ver e).message_received = none := by
  intro ver e h
  obtain ⟨fg, ss, rg⟩ := e
  cases ss with
  | false =>
    cases fg with
    | none => simp [verify_mailhog_functionality]
    | some r =>
      by_cases hs : r.status = 200 <;> cases hj : r.json <;>
        simp [verify_mailhog_functionality, hs, hj]
  | true =>
    cases fg with
    | none => simp [verify_mailhog_functionality]
    | some r =>
      by_cases hs : r.status = 200
      · exfalso
        rcases h with h | h <;>
          · revert h
            cases hj : r.json <;> simp [verify_mailhog_functionality, hs, hj]
      · simp [verify_mailhog_functionality, hs]

/-- Witness for C9: a failing API stage and a failing SMTP stage each leave
the message_received key absent. -/
theorem message_received_absent_witness :
    (verify_mailhog_functionality "v2" verifyEnvApiDown).message_received = none
    ∧ (verify_mailhog_functionality "v2" verifyEnvSmtpDown).message_received
        = none :=
  ⟨message_received_absent_on_stage_failure "v2" verifyEnvApiDown
     (Or.inl (by decide)),
   message_received_absent_on_stage_failure "v2" verifyEnvSmtpDown
     (Or.inr (by decide))⟩

/-- C3: outcome rule of the re-check step.  For a verification in which
both stages succeeded and the re-check GET yields a 200 response with a
parseable body, message_received is true exactly when the new count is
strictly greater than a known integer baseline, or the baseline was
unknown (the permissive fallback, independent of the new count). -/
theorem verification_outcome_rule :
    ∀ (ver : String) (e : VerifyEnv) (r : HttpResp) (j : JsonVal),
      (verify_mailhog_functionality ver e).api_test = true →
      (verify_mailhog_functionality ver e).smtp_test = true →
      e.recheckGet = some r → r.status = 200 → r.json = some j →
      ((verify_mailhog_functionality ver e).message_received = some true ↔
        ((∃ b, (verify_mailhog_functionality ver e).message_count =
            MCount.known b ∧ recheck_count ver j > b) ∨
         (verify_mailhog_functionality ver e).message_count =
           MCount.unknown)) := by
  intro ver e r j h1 h2 h3 h4 h5
  obtain ⟨fg, ss, rg⟩ := e
  subst h3
  cases ss with
  | false => exfalso; revert h2; simp [verify_mailhog_functionality]
  | true =>
    cases fg with
    | none => exfalso; revert h1; simp [verify_mailhog_functionality]
    | some r0 =>
      by_cases hs0 : r0.status = 200
      · cases hj0 : r0.json with
        | none =>
          simp [verify_mailhog_functionality, hs0, hj0, h4, h5]
        | some j0 =>
          cases hb : baseline_count ver j0 with
          | known b =>
            simp [verify_mailhog_functionality, hs0, hj0, h4, h5, hb]
          | unknown =>
            simp [verify_mailhog_functionality, hs0, hj0, h4, h5, hb]
      · exfalso; revert h1; simp [verify_mailhog_functionality, hs0]

/-- Witness for C3: baseline 0 and re-check count 1 give message_received
true, and an unknown baseline gives message_received true through the
permissive fallback. -/
theorem verification_outcome_rule_witness :
    (verify_mailhog_functionality "v2" verifyEnvBase).message_received =
      some true
    ∧ (verify_mailhog_functionality "v2" verifyEnvUnknown).message_received =
      some true :=
  ⟨(verification_outcome_rule "v2" verifyEnvBase
      ⟨200, some (JsonVal.itemsObj 1), false⟩ (JsonVal.itemsObj 1)
      (by decide) (by decide) rfl (by decide) rfl).mpr
      (Or.inl ⟨0, by decide, by decide⟩),
   (verification_outcome_rule "v2" verifyEnvUnknown
      ⟨200, some JsonVal.noItemsObj, false⟩ JsonVal.noItemsObj
      (by decide) (by decide) rfl (by decide) rfl).mpr
      (Or.inr (by decide))⟩

/-- C1 counterexample: on a server matching both listing endpoints (plain
JSON at the v1 path, items-JSON at the v2 path), the first path probed is
the v1 one and the v1 result wins, refuting the claimed v2-before-v1
precedence of is_mailhog_api. -/
theorem api_probe_order_counterexample :
    (is_mailhog_apiT httpEnvBoth).2.head? = some "/api/v1/messages"
    ∧ is_mailhog_api httpEnvBoth = (true, some "v1", some "/api/v1/messages")
    ∧ ¬ ((is_mailhog_apiT httpEnvBoth).2.head? = some "/api/v2/messages") :=
  ⟨by decide, by decide, by decide⟩

/-- C1 amended: is_mailhog_api probes its fixed path list with the v1
listing endpoint first, then the v2 listing endpoint, then the bare API
root, in that precedence; the first path that returns 200 with a body of
the expected shape wins and no later path is probed.  For a server
returning items-JSON at the v2 path and no 200 elsewhere, the result is
(true, v2, /api/v2/messages) and no path after the v2 one is probed,
though the v1 path was probed before it. -/
theorem api_probe_order_amended :
    (∀ (e : HttpEnv) (r : Bool × String × String),
       probePath e "/api/v1/messages" = some r →
       is_mailhog_apiT e = ((r.1, some r.2.1, some r.2.2), ["/api/v1/messages"]))
    ∧ (∀ (e : HttpEnv) (r : Bool × String × String),
       probePath e "/api/v1/messages" = none →
       probePath e "/api/v2/messages" = some r →
       is_mailhog_apiT e =
         ((r.1, some r.2.1, some r.2.2),
          ["/api/v1/messages", "/api/v2/messages"]))
    ∧ (∀ (e : HttpEnv) (r : Bool × String × String),
       probePath e "/api/v1/messages" = none →
       probePath e "/api/v2/messages" = none →
       probePath e "/api" = some r →
       is_mailhog_apiT e = ((r.1, some r.2.1, some r.2.2), api_paths))
    ∧ is_mailhog_apiT httpEnvV2Only =
        ((true, some "v2", some "/api/v2/messages"),
         ["/api/v1/messages", "/api/v2/messages"]) := by
  refine ⟨?_, ?_, ?_, by decide⟩
  · intro e r h
    simp [is_mailhog_apiT, api_paths, apiLoop, h]
  · intro e r h1 h2
    simp [is_mailhog_apiT, api_paths, apiLoop, h1, h2]
  · intro e r h1 h2 h3
    simp [is_mailhog_apiT, api_paths, apiLoop, h1, h2, h3]

/-- Witness for the amended C1: on the both-endpoints server the v1 probe
returns first and short-circuits everything after it. -/
theorem api_probe_order_amended_witness :
    is_mailhog_apiT httpEnvBoth =
      ((true, some "v1", some "/api/v1/messages"), ["/api/v1/messages"]) :=
  api_probe_order_amended.1 httpEnvBoth (true, "v1", "/api/v1/messages")
    (by decide)

/-- C6: early-exit rule of the API classification pass.  When an SMTP
candidate exists, the pass probes open ports only up to and including the
first API-positive port and records exactly one candidate; when no SMTP
candidate exists, every open port is probed even after API candidates
are found. -/
theorem api_pass_early_exit :
    (∀ (host : String) (e : Env) (pre : List Nat) (p : Nat) (post : List Nat),
       (∀ q ∈ pre, (is_mailhog_api (e.http q)).1 = false) →
       (is_mailhog_api (e.http p)).1 = true →
       (apiPass host e true (pre ++ p :: post)).2 =
         (pre ++ [p]).map Probe.api ∧
       (apiPass host e true (pre ++ p :: post)).1.length = 1)
    ∧ (∀ (host : String) (e : Env) (ports : List Nat),
         (apiPass host e false ports).2 = ports.map Probe.api) := by
  constructor
  · intro host e pre p post hpre hp
    induction pre with
    | nil =>
      obtain ⟨v, pa, hvp⟩ := is_mailhog_api_some (e.http p) hp
      simp [apiPass, hvp]
    | cons q pre ih =>
      have hq : (is_mailhog_api (e.http q)).1 = false := hpre q (by simp)
      rcases hq0 : is_mailhog_api (e.http q) with ⟨b, v, pa⟩
      rw [hq0] at hq
      simp only at hq
      subst hq
      have ihr := ih (fun x hx => hpre x (by simp [hx]))
      simp [apiPass, hq0, ihr.1, ihr.2]
  · intro host e ports
    induction ports with
    | nil => simp [apiPass]
    | cons q ports ih =>
      rcases hq0 : is_mailhog_api (e.http q) with ⟨b, v, pa⟩
      cases b <;> simp [apiPass, hq0, ih]

/-- Witness for C6: in the concrete environment the pass with an existing
SMTP candidate probes ports 2000 and 2001 only, never 2002, and yields a
single candidate; without an SMTP candidate all three ports are probed. -/
theorem api_pass_early_exit_witness :
    ((apiPass "localhost" envC6 true [2000, 2001, 2002]).2 =
       [Probe.api 2000, Probe.api 2001] ∧
     (apiPass "localhost" envC6 true [2000, 2001, 2002]).1.length = 1)
    ∧ (apiPass "localhost" envC6 false [2000, 2001, 2002]).2 =
        [Probe.api 2000, Probe.api 2001, Probe.api 2002] :=
  ⟨api_pass_early_exit.1 "localhost" envC6 [2000] 2001 [2002]
     (by decide) (by decide),
   api_pass_early_exit.2 "localhost" envC6 [2000, 2001, 2002]⟩

/-- C5: default-port shortcut.  When both default ports probe open and
both classify positively, the scan issues exactly the four default-port
probes and returns exactly the one resulting instance, so the full range
sweep never runs; when the default check does not fully resolve, every
port of the inclusive range is TCP-probed by the sweep. -/
theorem default_port_shortcut :
    (∀ (host : String) (e : Env) (lo hi : Nat),
       e.tcp DEFAULT_SMTP_PORT = true → e.tcp DEFAULT_HTTP_PORT = true →
       e.smtp DEFAULT_SMTP_PORT = true →
       (is_mailhog_api (e.http DEFAULT_HTTP_PORT)).1 = true →
       ∃ inst,
         scan_mailhog_portsT host e lo hi =
           ([inst],
            [Probe.tcp DEFAULT_SMTP_PORT, Probe.tcp DEFAULT_HTTP_PORT,
             Probe.smtp DEFAULT_SMTP_PORT, Probe.api DEFAULT_HTTP_PORT]) ∧
         inst.smtp_port = DEFAULT_SMTP_PORT ∧
         inst.api_port = DEFAULT_HTTP_PORT)
    ∧ (∀ (host : String) (e : Env) (lo hi : Nat),
         (check_default_mailhog_instanceT host e).1 = none →
         ∀ p, lo ≤ p → p ≤ hi →
           Probe.tcp p ∈ (scan_mailhog_portsT host e lo hi).2) := by
  constructor
  · intro host e lo hi h1 h2 h3 h4
    obtain ⟨v, pa, hvp⟩ := is_mailhog_api_some _ h4
    refine ⟨⟨DEFAULT_SMTP_PORT, DEFAULT_HTTP_PORT, v,
             mkUrl host DEFAULT_HTTP_PORT ++ pa,
             mkUrl host DEFAULT_HTTP_PORT⟩, ?_, rfl, rfl⟩
    simp [scan_mailhog_portsT, check_default_mailhog_instanceT, h1, h2, h3, hvp]
  · intro host e lo hi h p hlo hhi
    rcases hcd : check_default_mailhog_instanceT host e with ⟨o, tr⟩
    rw [hcd] at h
    simp only at h
    subst h
    have hp : Probe.tcp p ∈ (List.range' lo (hi + 1 - lo)).map Probe.tcp :=
      List.mem_map_of_mem Probe.tcp (List.mem_range'_1.mpr ⟨hlo, by omega⟩)
    simp only [scan_mailhog_portsT, hcd, sweepOpenPorts, List.mem_append]
    tauto

/-- Witness for C5: with MailHog live on both default ports the scan over
the range 2000-2002 issues only the four default-port probes and yields
one instance; with everything closed, port 2001 of the range is swept. -/
theorem default_port_shortcut_witness :
    (∃ inst,
       scan_mailhog_portsT "localhost" envDefaultUp 2000 2002 =
         ([inst],
          [Probe.tcp 1025, Probe.tcp 8025, Probe.smtp 1025, Probe.api 8025]) ∧
       inst.smtp_port = 1025 ∧ inst.api_port = 8025)
    ∧ Probe.tcp 2001 ∈ (scan_mailhog_portsT "localhost" envAllClosed 2000 2002).2 :=
  ⟨default_port_shortcut.1 "localhost" envDefaultUp 2000 2002
     (by decide) (by decide) (by decide) (by decide),
   default_port_shortcut.2 "localhost" envAllClosed 2000 2002
     (by decide) 2001 (by decide) (by decide)⟩

/-- C2: the program parses a skip-default-check flag but never consults
it.  The scan behaves identically whatever the flag is set to: with the
flag set it still issues the default-port probes first, and when the
defaults are live it still short-circuits on them, contradicting the
documented meaning of the flag. -/
theorem skip_default_flag_has_no_effect :
    (∀ (a : Args) (e : Env),
       main_scanT a e = main_scanT ⟨a.host, a.lo, a.hi, false⟩ e)
    ∧ (main_scanT ⟨"localhost", 2000, 2002, true⟩ envDefaultUp).2 =
        [Probe.tcp 1025, Probe.tcp 8025, Probe.smtp 1025, Probe.api 8025]
    ∧ (main_scanT ⟨"localhost", 2000, 2002, true⟩ envAllClosed).2.take 2 =
        [Probe.tcp 1025, Probe.tcp 8025] :=
  ⟨fun _ _ => rfl, by decide, by decide⟩

/-- C10: a port on which none of the three API paths matches but whose
root page mentions MailHog classifies as a web_interface API candidate at
path /, satisfies the API half of the default-port shortcut, and is
paired into instances by the correlator with apiVersion web_interface. -/
theorem web_interface_fallback :
    (∀ (e : HttpEnv) (r : HttpResp),
       probePath e "/api/v1/messages" = none →
       probePath e "/api/v2/messages" = none →
       probePath e "/api" = none →
       e.get "" = some r → r.textHasMailHog = true →
       is_mailhog_api e = (true, some "web_interface", some "/"))
    ∧ (check_default_mailhog_instanceT "localhost" envWebDefault).1 =
        some ⟨1025, 8025, "web_interface", "http://localhost:8025/",
              "http://localhost:8025"⟩
    ∧ scan_mailhog_ports "localhost" envWeb 3000 3002 =
        [⟨3000, 3001, "web_interface", "http://localhost:3001/",
          "http://localhost:3001"⟩] := by
  refine ⟨?_, by decide, by decide⟩
  intro e r h1 h2 h3 hg hm
  simp [is_mailhog_api, is_mailhog_apiT, api_paths, apiLoop, h1, h2, h3, hg, hm]

/-- Witness for C10: the concrete web-UI-only server classifies as
web_interface at path /. -/
theorem web_interface_fallback_witness :
    is_mailhog_api httpEnvWeb = (true, some "web_interface", some "/") :=
  web_interface_fallback.1 httpEnvWeb ⟨200, none, true⟩
    (by decide) (by decide) (by decide) (by decide) rfl

end MailhogScanner
